import Mathlib

/-!
Shallow embedding of the wireless-fingerprint-attendance client firmware
(`src/main.cpp`).  The device talks to one server over a line-oriented
socket and to an Adafruit fingerprint sensor; here every sensor call
consumes one result code from an explicit trace (`List FPCode`), the
server input is a list of pending lines, and the externally visible
effects (network writes, flush, socket close, Wi-Fi teardown, restart,
sensor stores, and the LCD renders that the claims talk about) are
collected in an event list.  `Option` results model blocking: `none`
means the corresponding C++ code is still inside a blocking loop or a
blocking read at the end of the supplied trace.  Serial logging and the
LCD animation/status renders not referenced by any verified property are
pure user feedback (spec section 2: no control-flow dependency) and are
not recorded in the event trace.
-/

/-- Result codes of the Adafruit fingerprint sensor as used by
`main.cpp` (`FINGERPRINT_OK`, `NOFINGER`, `PACKETRECIEVEERR`,
`IMAGEFAIL`, `IMAGEMESS`, `FEATUREFAIL`, `INVALIDIMAGE`,
`ENROLLMISMATCH`, `BADLOCATION`, `FLASHERR`, `NOTFOUND`); `other`
stands for any further code, which every switch in the source catches
with a `default` branch. -/
inductive FPCode where
  | ok
  | noFinger
  | packetRecvErr
  | imageFail
  | imageMess
  | featureFail
  | invalidImage
  | enrollMismatch
  | badLocation
  | flashErr
  | notFound
  | other
  deriving DecidableEq, Repr

/-- Externally visible effects of the firmware: a line written to the
socket (`client.println` / `client.print` of a newline-terminated
string), a socket flush, a socket close (`client.stop`), Wi-Fi teardown
(`WiFi.disconnect`), a device restart (`ESP.restart`), a
`storeModel(id)` call on the sensor, and the LCD renders referenced by
the claims (`displayText(l1, l2)`). -/
inductive Event where
  | writeLine (s : String)
  | flush
  | closeSocket
  | wifiDisconnect
  | restart
  | storeModel (id : Nat)
  | display (l1 l2 : String)
  deriving DecidableEq, Repr

/-- The network lines inside an event trace, in order. -/
def writes (evs : List Event) : List String :=
  evs.filterMap fun e =>
    match e with
    | Event.writeLine s => some s
    | _ => none

/-- Whether a character is whitespace for C `atol` (the classic-locale
`isspace` set). -/
def isSpaceC (c : Char) : Bool :=
  c = ' ' || c = '\t' || c = '\n' || c = '\x0b' || c = '\x0c' || c = '\r'

/-- Accumulate the leading decimal digits, stopping at the first
non-digit, as C `atol` does after the sign. -/
def digitsVal : List Char → Nat → Nat
  | [], acc => acc
  | c :: cs, acc =>
      if c.isDigit then digitsVal cs (10 * acc + (c.toNat - 48)) else acc

/-- C `atol` on a character list: skip whitespace, read an optional
sign, then a (possibly empty) run of digits; no digits yields 0. -/
def atolChars : List Char → Int
  | [] => 0
  | c :: cs =>
      if isSpaceC c then atolChars cs
      else if c = '-' then -(digitsVal cs 0 : Int)
      else if c = '+' then (digitsVal cs 0 : Int)
      else (digitsVal (c :: cs) 0 : Int)

/-- Arduino `String::toInt`, which is C `atol` on the underlying
buffer (`main.cpp:488`). -/
def atol (s : String) : Int := atolChars s.data

/-- The slot id actually used by `enrollFinger`: `uint8_t id =
finger_id_unparsed.toInt();` (`main.cpp:488`) — the parsed long reduced
modulo 2^8 by the unsigned-char conversion. -/
def parsedSlotId (s : String) : Nat := ((atol s).emod 256).toNat

/-- The image-acquisition loop of `getFingerprintEnroll`
(`main.cpp:224-247` for the first capture, `287-308` for the second):
call `getImage` once per iteration and keep looping until the code is
`FINGERPRINT_OK`; every other code (no finger, communication error,
imaging error, default) only logs and retries.  Returns the trace
remaining after the first `ok`, or `none` when the finite trace is
exhausted without an `ok` (the loop is still running). -/
def acquireLoop : List FPCode → Option (List FPCode)
  | [] => none
  | c :: rest => if c = FPCode.ok then some rest else acquireLoop rest

/-- The finger-removal wait of `getFingerprintEnroll`
(`main.cpp:279-282`): call `getImage` until it reports
`FINGERPRINT_NOFINGER` (the initial `p = 0` differs from `NOFINGER`, so
the body runs at least once). -/
def removalLoop : List FPCode → Option (List FPCode)
  | [] => none
  | c :: rest => if c = FPCode.noFinger then some rest else removalLoop rest

/-- `getFingerprintEnroll(id)` (`main.cpp:220-381`) on a sensor trace:
acquire the first image, extract to slot 1 (`image2Tz(1)`,
`main.cpp:251-272`; every non-`ok` branch returns 0), wait for
removal, acquire the second image, extract to slot 2
(`main.cpp:313-334`), `createModel` (`main.cpp:340-356`; every
non-`ok` branch returns 0), then `storeModel(id)`
(`main.cpp:361-378`; `ok` returns 1, every other branch returns 0).
Result: success flag, the ids passed to `storeModel` (the call happens
whether or not it succeeds), and the remaining sensor trace. -/
def getFingerprintEnroll (id : Nat) (codes : List FPCode) :
    Option (Bool × List Nat × List FPCode) :=
  match acquireLoop codes with
  | none => none
  | some r1 =>
    match r1 with
    | [] => none
    | c1 :: r2 =>
      if c1 = FPCode.ok then
        match removalLoop r2 with
        | none => none
        | some r3 =>
          match acquireLoop r3 with
          | none => none
          | some r4 =>
            match r4 with
            | [] => none
            | c2 :: r5 =>
              if c2 = FPCode.ok then
                match r5 with
                | [] => none
                | c3 :: r6 =>
                  if c3 = FPCode.ok then
                    match r6 with
                    | [] => none
                    | c4 :: r7 => some (c4 == FPCode.ok, [id], r7)
                  else some (false, [], r6)
              else some (false, [], r5)
      else some (false, [], r2)

/-- Fuel-indexed version of the retry loop
`while (!getFingerprintEnroll(id));` (`main.cpp:489`): run hardware
enrollment attempts back to back, collecting the `storeModel` ids, until
an attempt returns 1.  `none` means the loop is still running (an
attempt blocked on the trace, or the fuel ran out). -/
def enrollRetryFuel (id : Nat) : Nat → List FPCode → Option (List Nat × List FPCode)
  | 0, _ => none
  | fuel + 1, codes =>
      match getFingerprintEnroll id codes with
      | none => none
      | some (true, st, rest) => some (st, rest)
      | some (false, st, rest) =>
          (enrollRetryFuel id fuel rest).map fun p => (st ++ p.1, p.2)

/-- The retry loop `while (!getFingerprintEnroll(id));` (`main.cpp:489`)
on a finite sensor trace.  Every attempt consumes at least one sensor
code (its first acquire loop reads at least one image), so
`codes.length + 1` rounds of fuel can never be the limiting factor: the
loop answers `none` exactly when it is still running at the end of the
trace. -/
def enrollRetry (id : Nat) (codes : List FPCode) : Option (List Nat × List FPCode) :=
  enrollRetryFuel id (codes.length + 1) codes

/-- Outcome of one `enrollFinger` call: the emitted events, the server
lines not yet consumed, and the sensor trace not yet consumed. -/
structure EnrollOut where
  events : List Event
  remLines : List String
  remCodes : List FPCode
  deriving DecidableEq, Repr

/-- `enrollFinger()` (`main.cpp:474-516`): read eight lines from the
socket (slot id text plus the seven metadata fields, `main.cpp:478-485`),
acknowledge with `"enrollFinger"` (`main.cpp:487`), parse the slot id to
`uint8_t` (`main.cpp:488`), run hardware enrollment attempts until one
succeeds (`main.cpp:489`), then send the seven metadata fields and the
numeric id, one line each (`main.cpp:491-505`), and finally consume one
feedback line (`main.cpp:508`; the feedback only selects an LCD message,
which no claim references). -/
def enrollFinger (inLines : List String) (codes : List FPCode) : Option EnrollOut :=
  match inLines with
  | fidText :: fn :: mn :: lname :: ag :: gd :: ph :: ad :: rest =>
      let id : Nat := parsedSlotId fidText
      match enrollRetry id codes with
      | none => none
      | some (stores, remC) =>
          match rest with
          | [] => none
          | _feedback :: rest2 =>
              some { events :=
                       Event.writeLine "enrollFinger" ::
                       (stores.map Event.storeModel ++
                        [Event.writeLine fn, Event.writeLine mn,
                         Event.writeLine lname, Event.writeLine ag,
                         Event.writeLine gd, Event.writeLine ph,
                         Event.writeLine ad,
                         Event.writeLine (toString id)]),
                     remLines := rest2, remCodes := remC }
  | _ => none

/-- `getFingerprintID()` (`main.cpp:398-470`) on a sensor trace:
`getImage` (every non-`ok` branch returns -1, `main.cpp:400-417`), then
`image2Tz` (every non-`ok` branch returns -1, `main.cpp:423-443`), then
`fingerSearch` (`ok` returns the sensor's `fingerID`, a `uint16_t`
given here as `fid`; `notFound` and every other non-`ok` branch return
-1, `main.cpp:448-463`). -/
def getFingerprintID (codes : List FPCode) (fid : Nat) :
    Option (Int × List FPCode) :=
  match codes with
  | [] => none
  | c1 :: r1 =>
    if c1 = FPCode.ok then
      match r1 with
      | [] => none
      | c2 :: r2 =>
        if c2 = FPCode.ok then
          match r2 with
          | [] => none
          | c3 :: r3 =>
            if c3 = FPCode.ok then some ((fid : Int), r3) else some (-1, r3)
        else some (-1, r2)
    else some (-1, r1)

/-- Outcome of one `scanFinger` call: emitted events, remaining server
lines, remaining sensor trace. -/
structure ScanOut where
  events : List Event
  remLines : List String
  remCodes : List FPCode
  deriving DecidableEq, Repr

/-- `scanFinger()` (`main.cpp:519-541`): run `getFingerprintID`; when it
returns -1 the tick ends with no network write and no read.  On a match
the device writes `"scanFinger"` and the id, renders the logging
message, reads one feedback line; `"OK"` reads one further line (the
attendee's first name) and renders the welcome screen naming it, any
other feedback renders the failure message and reads nothing more
(`main.cpp:527-537`). -/
def scanFinger (inLines : List String) (codes : List FPCode) (fid : Nat) :
    Option ScanOut :=
  match getFingerprintID codes fid with
  | none => none
  | some (res, remC) =>
    if res = -1 then some { events := [], remLines := inLines, remCodes := remC }
    else
      match inLines with
      | [] => none
      | feedback :: rest =>
        if feedback = "OK" then
          match rest with
          | [] => none
          | attendeeFirstName :: rest2 =>
              some { events :=
                       [Event.writeLine "scanFinger",
                        Event.writeLine (toString res),
                        Event.display "    Logging     " "   Attendance   ",
                        Event.display "  Successfully  " "  Logged to DB  ",
                        Event.display "                " "                ",
                        Event.display "Welcome:        " attendeeFirstName],
                     remLines := rest2, remCodes := remC }
        else
          some { events :=
                   [Event.writeLine "scanFinger",
                    Event.writeLine (toString res),
                    Event.display "    Logging     " "   Attendance   ",
                    Event.display " Failed logging " "   Attendance   "],
                 remLines := rest, remCodes := remC }

/-- The mutable globals and session state the main loop works with: the
`is_connected` flag, the previous disconnect-button level
(`discon_btn_old_state`), the pending server lines (the socket input
buffer; a stopped socket has nothing available), and the event trace
produced so far. -/
structure DeviceState where
  is_connected : Bool
  discon_btn_old : Bool
  inLines : List String
  events : List Event
  deriving DecidableEq, Repr

/-- `disconnectFromServer()` (`main.cpp:204-214`): when connected, write
the `"disconnect"` farewell line, flush, stop the socket, clear the
flag and render the disconnected screen; when already disconnected, do
nothing at all. -/
def disconnectFromServer (s : DeviceState) : DeviceState :=
  if s.is_connected then
    { s with
      is_connected := false,
      events := s.events ++
        [Event.writeLine "disconnect", Event.flush, Event.closeSocket,
         Event.display "  Disconnected  " "  please reset  "] }
  else s

/-- Per-tick environment: the disconnect-button level read by
`digitalRead(DISCON)`, the sensor trace available to this tick, and the
sensor's `fingerID` for a successful search. -/
structure TickInput where
  btn : Bool
  codes : List FPCode
  fid : Nat
  deriving DecidableEq, Repr

/-- Result of one main-loop iteration: the new state, whether the scan
step (`scanFinger`) ran this tick, and whether the tick ended in
`ESP.restart()`. -/
structure TickOut where
  state : DeviceState
  ranScan : Bool
  restarted : Bool
  deriving DecidableEq, Repr

/-- `client.available()` as seen by the dispatcher: a stopped socket
reports no pending data, otherwise data is pending exactly when the
input buffer is non-empty. -/
def clientAvailable (s : DeviceState) : Bool :=
  s.is_connected && !s.inLines.isEmpty

/-- One iteration of `loop()` (`main.cpp:572-608`): poll the disconnect
button and disconnect on a low-to-high edge (`main.cpp:576-580`); if a
line is available, read it and dispatch — `"disconnect"` disconnects,
`"reboot"` disconnects then tears down Wi-Fi and restarts (the
iteration ends there, `ESP.restart` does not return), `"enroll"` runs
the blocking enrollment, anything else is ignored (`main.cpp:583-600`);
finally, if still connected, run `scanFinger` once (`main.cpp:603-606`)
and remember the button level (`main.cpp:607`). -/
def loopTick (s : DeviceState) (inp : TickInput) : Option TickOut :=
  let s1 := if inp.btn ≠ s.discon_btn_old ∧ inp.btn then disconnectFromServer s else s
  let afterCmd : Option (DeviceState × Bool × List FPCode) :=
    if clientAvailable s1 then
      match s1.inLines with
      | [] => some (s1, false, inp.codes)
      | msg :: rest =>
        let s2 : DeviceState := { s1 with inLines := rest }
        if msg = "disconnect" then some (disconnectFromServer s2, false, inp.codes)
        else if msg = "reboot" then
          let s3 := disconnectFromServer s2
          some ({ s3 with events := s3.events ++ [Event.wifiDisconnect, Event.restart] },
                true, inp.codes)
        else if msg = "enroll" then
          match enrollFinger s2.inLines inp.codes with
          | none => none
          | some out =>
              some ({ s2 with inLines := out.remLines,
                              events := s2.events ++ out.events },
                    false, out.remCodes)
        else some (s2, false, inp.codes)
    else some (s1, false, inp.codes)
  match afterCmd with
  | none => none
  | some (s2, restarted, codes2) =>
    if restarted then some { state := s2, ranScan := false, restarted := true }
    else if s2.is_connected then
      match scanFinger s2.inLines codes2 inp.fid with
      | none => none
      | some out =>
          some { state := { s2 with inLines := out.remLines,
                                    events := s2.events ++ out.events,
                                    discon_btn_old := inp.btn },
                 ranScan := true, restarted := false }
    else some { state := { s2 with discon_btn_old := inp.btn },
                ranScan := false, restarted := false }

/-- Iterate `loopTick` over a list of per-tick inputs; an
`ESP.restart()` ends the run (the process never returns from it), and a
tick still blocked at the end of its trace yields `none`. -/
def runLoop (s : DeviceState) : List TickInput → Option DeviceState
  | [] => some s
  | inp :: rest =>
      match loopTick s inp with
      | none => none
      | some out => if out.restarted then some out.state else runLoop out.state rest

/-- A concrete sensor trace whose first hardware enrollment attempt
fails hard (the first `image2Tz` returns `IMAGEMESS`) and whose second
attempt runs cleanly to a successful store. -/
def exFailCodes : List FPCode :=
  [FPCode.ok, FPCode.imageMess,
   FPCode.noFinger, FPCode.ok, FPCode.ok, FPCode.noFinger,
   FPCode.ok, FPCode.ok, FPCode.ok, FPCode.ok]

/-- Exactly nine server lines: the slot id, the seven metadata fields,
and one feedback line — what one enrollment needs when nothing is ever
re-read. -/
def exNineLines : List String :=
  ["42", "Ana", "Lee", "Cruz", "20", "F", "555", "Mainst", "OK"]

theorem acquireLoop_cons_ne (c : FPCode) (rest : List FPCode)
    (h : c ≠ FPCode.ok) : acquireLoop (c :: rest) = acquireLoop rest := by
  simp [acquireLoop, h]

theorem acquireLoop_first_ok (pre rest : List FPCode)
    (h : FPCode.ok ∉ pre) :
    acquireLoop (pre ++ FPCode.ok :: rest) = some rest := by
  induction pre with
  | nil => simp [acquireLoop]
  | cons c cs ih =>
      have hc : c ≠ FPCode.ok := fun he => h (by simp [he])
      have hcs : FPCode.ok ∉ cs := fun hm => h (List.mem_cons_of_mem c hm)
      rw [List.cons_append, acquireLoop_cons_ne c _ hc]
      exact ih hcs

theorem acquireLoop_no_ok (cs : List FPCode) (h : FPCode.ok ∉ cs) :
    acquireLoop cs = none := by
  induction cs with
  | nil => rfl
  | cons c rest ih =>
      have hc : c ≠ FPCode.ok := fun he => h (by simp [he])
      have hrest : FPCode.ok ∉ rest := fun hm => h (List.mem_cons_of_mem c hm)
      rw [acquireLoop_cons_ne c rest hc]
      exact ih hrest

theorem getFingerprintEnroll_stores (id : Nat) (codes : List FPCode)
    (b : Bool) (st : List Nat) (rest : List FPCode)
    (h : getFingerprintEnroll id codes = some (b, st, rest)) :
    ∀ n ∈ st, n = id := by
  intro n hn
  unfold getFingerprintEnroll at h
  repeat' split at h
  all_goals (try (simp_all; done))
  all_goals (cases h; simpa using hn)

theorem enrollRetryFuel_stores (id : Nat) (fuel : Nat) (codes : List FPCode)
    (st : List Nat) (rest : List FPCode)
    (h : enrollRetryFuel id fuel codes = some (st, rest)) :
    ∀ n ∈ st, n = id := by
  induction fuel generalizing codes st rest with
  | zero => exact absurd h (by simp [enrollRetryFuel])
  | succ f ih =>
      unfold enrollRetryFuel at h
      split at h
      · exact absurd h (by simp)
      · rename_i st1 rest1 heq
        simp only [Option.some.injEq, Prod.mk.injEq] at h
        rcases h with ⟨h1, h2⟩
        subst h1
        exact getFingerprintEnroll_stores id codes true st1 rest1 heq
      · rename_i st1 rest1 heq
        rcases hr : enrollRetryFuel id f rest1 with _ | ⟨st2, rest2⟩ <;> rw [hr] at h
        · rw [Option.map_none'] at h
          exact Option.noConfusion h
        · rw [Option.map_some'] at h
          simp only [Option.some.injEq, Prod.mk.injEq] at h
          rcases h with ⟨hst, _⟩
          subst hst
          intro n hn
          rcases List.mem_append.mp hn with h1 | h2
          · exact getFingerprintEnroll_stores id codes false st1 rest1 heq n h1
          · exact ih rest1 st2 rest2 hr n h2

theorem writes_storeModels (l : List Nat) :
    writes (l.map Event.storeModel) = [] := by
  simp [writes, List.filterMap_map, Function.comp]

theorem enrollFinger_eq (fidText fn mn lname ag gd ph ad fb : String)
    (rest : List String) (codes : List FPCode)
    (stores : List Nat) (remC : List FPCode)
    (h : enrollRetry (parsedSlotId fidText) codes = some (stores, remC)) :
    enrollFinger (fidText :: fn :: mn :: lname :: ag :: gd :: ph :: ad :: fb :: rest) codes =
      some { events := Event.writeLine "enrollFinger" ::
               (stores.map Event.storeModel ++
                [Event.writeLine fn, Event.writeLine mn, Event.writeLine lname,
                 Event.writeLine ag, Event.writeLine gd, Event.writeLine ph,
                 Event.writeLine ad,
                 Event.writeLine (toString (parsedSlotId fidText))]),
             remLines := rest, remCodes := remC } := by
  simp [enrollFinger, h]

theorem loopTick_disconnected (s : DeviceState) (inp : TickInput)
    (hc : s.is_connected = false) :
    loopTick s inp = some { state := { s with discon_btn_old := inp.btn },
                            ranScan := false, restarted := false } := by
  simp [loopTick, clientAvailable, disconnectFromServer, hc]

theorem runLoop_disconnected (s : DeviceState) (inputs : List TickInput)
    (hc : s.is_connected = false) :
    ∃ fin, runLoop s inputs = some fin ∧ fin.is_connected = false ∧
      fin.events = s.events ∧ fin.inLines = s.inLines := by
  induction inputs generalizing s with
  | nil => exact ⟨s, rfl, hc, rfl, rfl⟩
  | cons inp rest ih =>
      rw [runLoop, loopTick_disconnected s inp hc]
      simpa using ih { s with discon_btn_old := inp.btn } hc

/-- C8: the enrollment acquire loop exits exactly at the first `OK`
result from the sensor (consuming the codes before and including it)
and retries on every other result code — no finger, communication
error, imaging error, unknown — with no retry cap or timeout: on any
finite trace containing no `OK` it has not exited, i.e. on a result
stream never containing `OK` the loop runs forever. -/
theorem C8_acquire_loop :
    (∀ pre rest : List FPCode, FPCode.ok ∉ pre →
        acquireLoop (pre ++ FPCode.ok :: rest) = some rest) ∧
    (∀ cs : List FPCode, FPCode.ok ∉ cs → acquireLoop cs = none) :=
  ⟨acquireLoop_first_ok, acquireLoop_no_ok⟩

/-- C8 witness: the loop exits at the first `OK` of a concrete trace
that retries through no-finger, communication, imaging and unknown
codes, and has not exited on the
`OK`-free prefix alone. -/
theorem C8_acquire_loop_witness :
    acquireLoop [FPCode.noFinger, FPCode.packetRecvErr, FPCode.imageFail,
      FPCode.other, FPCode.ok, FPCode.imageMess] = some [FPCode.imageMess] ∧
    acquireLoop [FPCode.noFinger, FPCode.packetRecvErr, FPCode.imageFail,
      FPCode.other] = none :=
  ⟨C8_acquire_loop.1 [FPCode.noFinger, FPCode.packetRecvErr, FPCode.imageFail,
      FPCode.other] [FPCode.imageMess] (by decide),
   C8_acquire_loop.2 [FPCode.noFinger, FPCode.packetRecvErr, FPCode.imageFail,
      FPCode.other] (by decide)⟩

/-- C4: disconnecting is idempotent — applying `disconnectFromServer`
twice equals applying it once; on an already-disconnected state it
writes no farewell line, performs no close, and leaves the state
unchanged; on a connected state it clears the flag and appends exactly
the `"disconnect"` farewell line, then the flush, then the socket
close (then the LCD notice). -/
theorem C4_disconnect_idempotent (s : DeviceState) :
    disconnectFromServer (disconnectFromServer s) = disconnectFromServer s ∧
    (s.is_connected = false → disconnectFromServer s = s) ∧
    (s.is_connected = true →
      (disconnectFromServer s).is_connected = false ∧
      (disconnectFromServer s).events = s.events ++
        [Event.writeLine "disconnect", Event.flush, Event.closeSocket,
         Event.display "  Disconnected  " "  please reset  "]) := by
  by_cases hc : s.is_connected <;> simp [disconnectFromServer, hc]

/-- C4 witness: on a concrete already-disconnected state the operation
is the identity. -/
theorem C4_disconnect_idempotent_witness :
    disconnectFromServer
      { is_connected := false, discon_btn_old := false,
        inLines := [], events := [Event.closeSocket] } =
      { is_connected := false, discon_btn_old := false,
        inLines := [], events := [Event.closeSocket] } :=
  (C4_disconnect_idempotent
    { is_connected := false, discon_btn_old := false,
      inLines := [], events := [Event.closeSocket] }).2.1 rfl

/-- C5: a `"reboot"` command received while connected first performs
the full disconnect sequence — `"disconnect"` farewell line, flush,
socket close, flag cleared (plus the LCD notice) — and only then
relinquishes the Wi-Fi link and restarts: `wifiDisconnect` and
`restart` are appended strictly after the disconnect events, the tick
ends restarted, and the scan step does not run. -/
theorem C5_reboot_disconnects_first (s : DeviceState) (inp : TickInput)
    (rest : List String) (hc : s.is_connected = true)
    (hl : s.inLines = "reboot" :: rest) (hb : inp.btn = s.discon_btn_old) :
    loopTick s inp = some
      { state := { s with is_connected := false, inLines := rest,
                          events := s.events ++
                            [Event.writeLine "disconnect", Event.flush,
                             Event.closeSocket,
                             Event.display "  Disconnected  " "  please reset  ",
                             Event.wifiDisconnect, Event.restart] },
        ranScan := false, restarted := true } := by
  simp [loopTick, clientAvailable, disconnectFromServer, hc, hl, hb]

/-- C5 witness: the reboot tick at a concrete connected state. -/
theorem C5_reboot_disconnects_first_witness :
    loopTick { is_connected := true, discon_btn_old := false,
               inLines := ["reboot"], events := [] }
             { btn := false, codes := [], fid := 0 } = some
      { state := { is_connected := false, discon_btn_old := false,
                   inLines := [],
                   events := [Event.writeLine "disconnect", Event.flush,
                              Event.closeSocket,
                              Event.display "  Disconnected  " "  please reset  ",
                              Event.wifiDisconnect, Event.restart] },
        ranScan := false, restarted := true } :=
  C5_reboot_disconnects_first
    { is_connected := true, discon_btn_old := false,
      inLines := ["reboot"], events := [] }
    { btn := false, codes := [], fid := 0 } [] rfl rfl rfl

/-- C7: a command line that is none of `"disconnect"`, `"reboot"`,
`"enroll"` is ignored by the dispatcher: the connection flag is left
unchanged (still connected) and the tick still invokes the scan step
exactly once, whose outcome is appended as usual. -/
theorem C7_unknown_command_ignored (s : DeviceState) (inp : TickInput)
    (cmd : String) (rest : List String) (so : ScanOut)
    (hc : s.is_connected = true) (hl : s.inLines = cmd :: rest)
    (h1 : cmd ≠ "disconnect") (h2 : cmd ≠ "reboot") (h3 : cmd ≠ "enroll")
    (hb : inp.btn = s.discon_btn_old)
    (hs : scanFinger rest inp.codes inp.fid = some so) :
    loopTick s inp = some
      { state := { s with inLines := so.remLines,
                          events := s.events ++ so.events,
                          discon_btn_old := inp.btn },
        ranScan := true, restarted := false } := by
  simp [loopTick, clientAvailable, hc, hl, hb, h1, h2, h3, hs]

/-- C7 witness: a concrete tick with the unrecognized command
`"status"`, where the scan step runs and finds no finger. -/
theorem C7_unknown_command_ignored_witness :
    scanFinger [] [FPCode.noFinger] 0 =
      some { events := [], remLines := [], remCodes := [] } ∧
    loopTick { is_connected := true, discon_btn_old := false,
               inLines := ["status"], events := [] }
             { btn := false, codes := [FPCode.noFinger], fid := 0 } = some
      { state := { is_connected := true, discon_btn_old := false,
                   inLines := [], events := [] },
        ranScan := true, restarted := false } :=
  ⟨rfl,
   C7_unknown_command_ignored
     { is_connected := true, discon_btn_old := false,
       inLines := ["status"], events := [] }
     { btn := false, codes := [FPCode.noFinger], fid := 0 }
     "status" [] { events := [], remLines := [], remCodes := [] }
     rfl rfl (by decide) (by decide) (by decide) rfl rfl⟩

/-- C10: once the connected flag is false no main-loop iteration sets
it true again — connection is only established in `setup` — so from a
disconnected state every tick leaves the flag false, emits no event
(in particular writes nothing to the network), does not run the scan
step, and any run of the loop preserves the event trace and input
buffer. -/
theorem C10_disconnect_is_final :
    (∀ (s : DeviceState) (inp : TickInput), s.is_connected = false →
        loopTick s inp = some
          { state := { s with discon_btn_old := inp.btn },
            ranScan := false, restarted := false }) ∧
    (∀ (s : DeviceState) (inputs : List TickInput), s.is_connected = false →
        ∃ fin, runLoop s inputs = some fin ∧ fin.is_connected = false ∧
          fin.events = s.events ∧ fin.inLines = s.inLines) :=
  ⟨loopTick_disconnected, runLoop_disconnected⟩

/-- C10 witness: a concrete disconnected state with a pending
`"enroll"` line and a pressed button stays disconnected, eventless and
scan-free over a tick and over a three-tick run. -/
theorem C10_disconnect_is_final_witness :
    loopTick { is_connected := false, discon_btn_old := false,
               inLines := ["enroll"], events := [Event.closeSocket] }
             { btn := true, codes := [FPCode.ok], fid := 3 } = some
      { state := { is_connected := false, discon_btn_old := true,
                   inLines := ["enroll"], events := [Event.closeSocket] },
        ranScan := false, restarted := false } ∧
    (∃ fin, runLoop { is_connected := false, discon_btn_old := false,
                      inLines := ["enroll"], events := [Event.closeSocket] }
        [{ btn := true, codes := [FPCode.ok], fid := 3 },
         { btn := false, codes := [], fid := 0 },
         { btn := true, codes := [], fid := 0 }] = some fin ∧
      fin.is_connected = false ∧
      fin.events = [Event.closeSocket] ∧ fin.inLines = ["enroll"]) :=
  ⟨C10_disconnect_is_final.1
     { is_connected := false, discon_btn_old := false,
       inLines := ["enroll"], events := [Event.closeSocket] }
     { btn := true, codes := [FPCode.ok], fid := 3 } rfl,
   C10_disconnect_is_final.2
     { is_connected := false, discon_btn_old := false,
       inLines := ["enroll"], events := [Event.closeSocket] }
     [{ btn := true, codes := [FPCode.ok], fid := 3 },
      { btn := false, codes := [], fid := 0 },
      { btn := true, codes := [], fid := 0 }] rfl⟩

/-- C3: whenever `getFingerprintID` yields no result — the sensor
reported no finger, no match was found, or any imaging, extraction or
communication error occurred, all of which return -1 — the scan tick
writes nothing to the network, reads no line from the server, and
emits no event at all. -/
theorem C3_no_result_no_traffic (inLines : List String) (codes : List FPCode)
    (fid : Nat) (remC : List FPCode)
    (h : getFingerprintID codes fid = some (-1, remC)) :
    scanFinger inLines codes fid =
      some { events := [], remLines := inLines, remCodes := remC } := by
  simp [scanFinger, h]

/-- C3 witness: a no-finger tick and a no-match tick, each with a
pending server line that stays unread. -/
theorem C3_no_result_no_traffic_witness :
    scanFinger ["OK"] [FPCode.noFinger] 7 =
      some { events := [], remLines := ["OK"], remCodes := [] } ∧
    scanFinger ["OK"] [FPCode.ok, FPCode.ok, FPCode.notFound] 7 =
      some { events := [], remLines := ["OK"], remCodes := [] } :=
  ⟨C3_no_result_no_traffic ["OK"] [FPCode.noFinger] 7 [] rfl,
   C3_no_result_no_traffic ["OK"] [FPCode.ok, FPCode.ok, FPCode.notFound] 7 [] rfl⟩

/-- C6: after a verification match, feedback `"OK"` makes the device
consume exactly one further line — the matched person's display name —
and render the welcome screen naming it; any other feedback renders the
failure screen and consumes no line beyond the feedback line itself. -/
theorem C6_feedback_handling (codes : List FPCode) (fid : Nat) (n : Int)
    (remC : List FPCode) (hm : getFingerprintID codes fid = some (n, remC))
    (hn : n ≠ -1) :
    (∀ (name : String) (rest : List String),
        scanFinger ("OK" :: name :: rest) codes fid = some
          { events := [Event.writeLine "scanFinger", Event.writeLine (toString n),
                       Event.display "    Logging     " "   Attendance   ",
                       Event.display "  Successfully  " "  Logged to DB  ",
                       Event.display "                " "                ",
                       Event.display "Welcome:        " name],
            remLines := rest, remCodes := remC }) ∧
    (∀ (fb : String) (rest : List String), fb ≠ "OK" →
        scanFinger (fb :: rest) codes fid = some
          { events := [Event.writeLine "scanFinger", Event.writeLine (toString n),
                       Event.display "    Logging     " "   Attendance   ",
                       Event.display " Failed logging " "   Attendance   "],
            remLines := rest, remCodes := remC }) := by
  constructor
  · intro name rest
    simp [scanFinger, hm, hn]
  · intro fb rest hfb
    simp [scanFinger, hm, hn, hfb]

/-- C6 witness: a match with id 7 and confidence-backed search success,
once with feedback `"OK"` and name `"Ana"`, once with feedback
`"ERR"`. -/
theorem C6_feedback_handling_witness :
    scanFinger ["OK", "Ana"] [FPCode.ok, FPCode.ok, FPCode.ok] 7 = some
      { events := [Event.writeLine "scanFinger", Event.writeLine "7",
                   Event.display "    Logging     " "   Attendance   ",
                   Event.display "  Successfully  " "  Logged to DB  ",
                   Event.display "                " "                ",
                   Event.display "Welcome:        " "Ana"],
        remLines := [], remCodes := [] } ∧
    scanFinger ["ERR", "Ana"] [FPCode.ok, FPCode.ok, FPCode.ok] 7 = some
      { events := [Event.writeLine "scanFinger", Event.writeLine "7",
                   Event.display "    Logging     " "   Attendance   ",
                   Event.display " Failed logging " "   Attendance   "],
        remLines := ["Ana"], remCodes := [] } :=
  ⟨(C6_feedback_handling [FPCode.ok, FPCode.ok, FPCode.ok] 7 7 [] rfl
      (by decide)).1 "Ana" [],
   (C6_feedback_handling [FPCode.ok, FPCode.ok, FPCode.ok] 7 7 [] rfl
      (by decide)).2 "ERR" ["Ana"] (by decide)⟩

/-- C1 counterexample: the claim says a hard failure makes the
enrollment restart "including re-reading all 8 input lines".  On the
concrete trace `exFailCodes` the first hardware attempt fails hard (the
first extraction returns `IMAGEMESS`), yet `enrollFinger` completes
successfully against a session that supplies exactly nine lines — the
eight inputs plus one feedback line — and consumes them all exactly
once (`remLines = []`); were the eight inputs re-read after the
failure, nine lines could not suffice.  The single metadata copy in the
event list also shows nothing was sent during the aborted attempt. -/
theorem C1_counterexample :
    getFingerprintEnroll 42 exFailCodes = some (false, [],
      [FPCode.noFinger, FPCode.ok, FPCode.ok, FPCode.noFinger,
       FPCode.ok, FPCode.ok, FPCode.ok, FPCode.ok]) ∧
    enrollFinger exNineLines exFailCodes = some
      { events := [Event.writeLine "enrollFinger", Event.storeModel 42,
                   Event.writeLine "Ana", Event.writeLine "Lee",
                   Event.writeLine "Cruz", Event.writeLine "20",
                   Event.writeLine "F", Event.writeLine "555",
                   Event.writeLine "Mainst", Event.writeLine "42"],
        remLines := [], remCodes := [] } :=
  ⟨rfl, rfl⟩

/-- C1 amended: a hard failure (extraction, match or store) aborts only
the hardware attempt `getFingerprintEnroll`, which the retry loop
inside `enrollFinger` re-runs until success; the eight input lines are
read exactly once per enroll command and never re-read, and no metadata
line is sent to the server from any aborted attempt — the only events
the retry loop can contribute are `storeModel` calls, which carry no
network write, and the metadata lines are written only after the
hardware enrollment succeeds. -/
theorem C1_retry_scope (fidText fn mn lname ag gd ph ad fb : String)
    (rest : List String) (codes : List FPCode)
    (stores : List Nat) (remC : List FPCode)
    (h : enrollRetry (parsedSlotId fidText) codes = some (stores, remC)) :
    enrollFinger (fidText :: fn :: mn :: lname :: ag :: gd :: ph :: ad :: fb :: rest)
        codes =
      some { events := Event.writeLine "enrollFinger" ::
                         (stores.map Event.storeModel ++
                          [Event.writeLine fn, Event.writeLine mn,
                           Event.writeLine lname, Event.writeLine ag,
                           Event.writeLine gd, Event.writeLine ph,
                           Event.writeLine ad,
                           Event.writeLine (toString (parsedSlotId fidText))]),
             remLines := rest, remCodes := remC } ∧
    writes (stores.map Event.storeModel) = [] :=
  ⟨enrollFinger_eq fidText fn mn lname ag gd ph ad fb rest codes stores remC h,
   writes_storeModels stores⟩

/-- C1 witness: the amended statement at the concrete failing-then-
succeeding trace of the counterexample. -/
theorem C1_retry_scope_witness :
    enrollRetry (parsedSlotId "42") exFailCodes = some ([42], []) ∧
    (enrollFinger exNineLines exFailCodes = some
      { events := Event.writeLine "enrollFinger" ::
                    ([42].map Event.storeModel ++
                     [Event.writeLine "Ana", Event.writeLine "Lee",
                      Event.writeLine "Cruz", Event.writeLine "20",
                      Event.writeLine "F", Event.writeLine "555",
                      Event.writeLine "Mainst",
                      Event.writeLine (toString (parsedSlotId "42"))]),
        remLines := [], remCodes := [] } ∧
     writes ([42].map Event.storeModel) = []) :=
  ⟨rfl, C1_retry_scope "42" "Ana" "Lee" "Cruz" "20" "F" "555" "Mainst" "OK"
     [] exFailCodes [42] [] rfl⟩

/-- C2: after a successful enrollment the seven metadata fields are
sent back verbatim and in order — first name, middle name, last name,
age, gender, phone, address — followed by the numeric slot id, right
after the `"enrollFinger"` acknowledgement; these are the only network
writes of the whole enrollment. -/
theorem C2_metadata_verbatim (fidText fn mn lname ag gd ph ad fb : String)
    (rest : List String) (codes : List FPCode)
    (stores : List Nat) (remC : List FPCode)
    (h : enrollRetry (parsedSlotId fidText) codes = some (stores, remC)) :
    ∃ out, enrollFinger (fidText :: fn :: mn :: lname :: ag :: gd :: ph :: ad :: fb :: rest)
        codes = some out ∧
      writes out.events = ["enrollFinger", fn, mn, lname, ag, gd, ph, ad,
        toString (parsedSlotId fidText)] := by
  refine ⟨_, enrollFinger_eq fidText fn mn lname ag gd ph ad fb rest codes
    stores remC h, ?_⟩
  simp [writes, List.filterMap_append, List.filterMap_map, Function.comp]

/-- C2 witness: the verbatim echo on the concrete nine-line session of
the examples. -/
theorem C2_metadata_verbatim_witness :
    enrollRetry (parsedSlotId "42") exFailCodes = some ([42], []) ∧
    (∃ out, enrollFinger exNineLines exFailCodes = some out ∧
      writes out.events = ["enrollFinger", "Ana", "Lee", "Cruz", "20", "F",
        "555", "Mainst", toString (parsedSlotId "42")]) :=
  ⟨rfl, C2_metadata_verbatim "42" "Ana" "Lee" "Cruz" "20" "F" "555" "Mainst"
     "OK" [] exFailCodes [42] [] rfl⟩

/-- C9: every id the enrollment passes to `storeModel` equals the slot
line text parsed by `atol` and truncated to eight bits; in particular a
non-numeric slot line yields id 0, and numeric values outside 0..255
wrap modulo 256, so the id actually enrolled can differ from the value
the server sent (300 enrolls as 44, -1 as 255). -/
theorem C9_slot_id_truncated (fidText fn mn lname ag gd ph ad fb : String)
    (rest : List String) (codes : List FPCode)
    (stores : List Nat) (remC : List FPCode)
    (h : enrollRetry (parsedSlotId fidText) codes = some (stores, remC)) :
    (∃ out, enrollFinger
        (fidText :: fn :: mn :: lname :: ag :: gd :: ph :: ad :: fb :: rest)
        codes = some out ∧
      ∀ n, Event.storeModel n ∈ out.events →
        n = ((atol fidText).emod 256).toNat) ∧
    parsedSlotId "fortytwo" = 0 ∧
    parsedSlotId "300" = 44 ∧
    parsedSlotId "-1" = 255 := by
  refine ⟨⟨_, enrollFinger_eq fidText fn mn lname ag gd ph ad fb rest codes
    stores remC h, ?_⟩, by decide, by decide, by decide⟩
  intro n hmem
  have hstores : ∀ m ∈ stores, m = parsedSlotId fidText :=
    enrollRetryFuel_stores (parsedSlotId fidText) (codes.length + 1) codes
      stores remC (by simpa [enrollRetry] using h)
  simp only [List.mem_cons, List.mem_append, List.mem_map] at hmem
  rcases hmem with h1 | ⟨⟨x, hx, hxe⟩ | h2⟩
  · exact absurd h1 (by simp)
  · have hxn : x = n := by
      injection hxe
    rw [← hxn]
    exact hstores x hx
  · exact absurd h2 (by simp)

/-- C9 witness: the truncation property at the concrete session of the
examples (slot line `"42"`). -/
theorem C9_slot_id_truncated_witness :
    enrollRetry (parsedSlotId "42") exFailCodes = some ([42], []) ∧
    ((∃ out, enrollFinger exNineLines exFailCodes = some out ∧
        ∀ n, Event.storeModel n ∈ out.events →
          n = ((atol "42").emod 256).toNat) ∧
      parsedSlotId "fortytwo" = 0 ∧
      parsedSlotId "300" = 44 ∧
      parsedSlotId "-1" = 255) :=
  ⟨rfl, C9_slot_id_truncated "42" "Ana" "Lee" "Cruz" "20" "F" "555" "Mainst"
     "OK" [] exFailCodes [42] [] rfl⟩
